import Mathlib

/-!
# mini-shell: the command-tree executor of `src/cmd.c`

A shallow embedding of `shell_cd`, `shell_exit`, `parse_simple`, `run_in_parallel`,
`run_on_pipe` and `parse_command`.

* The state of the calling process (environment table, working directory, number of
  `fork()` calls it has made) and the state outside it are threaded explicitly (`World`).
* What `cmd.c` takes from headers and collaborators that are not part of `src/`
  (`SHELL_EXIT`, `IO_OUT_APPEND`, `IO_ERR_APPEND`, `get_word`, `get_argv`) and what the
  operating system decides (`chdir`, `pipe`, how a spawned program ends, how two concurrent
  children end) are fields of `Host`; every general theorem holds for every `Host`.
* `DIE(...)` in the calling process ends that process: `parse_command` returns
  `Except.error` holding the outside state at that moment.
* `fork()` and `waitpid()` are taken to succeed and every child to end (the code checks
  neither); `level` and `father` are passed along by the source and never read, so they
  are left out.
-/

namespace MiniShell

/-! ## Constants of the system headers (Linux values) -/

def O_RDONLY : Nat := 0
def O_WRONLY : Nat := 1
def O_CREAT : Nat := 64
def O_TRUNC : Nat := 512
def O_APPEND : Nat := 1024
def STDIN_FILENO : Nat := 0
def STDOUT_FILENO : Nat := 1
def STDERR_FILENO : Nat := 2
def EXIT_FAILURE : Nat := 1

/-- The wait status `W_EXITCODE(ret, sig)` of `<sys/wait.h>`: `ret << 8 | sig`. -/
def W_EXITCODE (ret sig : Nat) : Nat := ret * 256 + sig

/-- The macro `WEXITSTATUS(status)`: `(status & 0xff00) >> 8`. -/
def WEXITSTATUS (status : Nat) : Nat := (status / 256) % 256

/-- The macro `WTERMSIG(status)`: `status & 0x7f`. -/
def WTERMSIG (status : Nat) : Nat := status % 128

/-- The macro `WIFEXITED(status)`: `WTERMSIG(status) == 0`. -/
def WIFEXITED (status : Nat) : Bool := WTERMSIG status == 0

/-- The macro `WIFSIGNALED(status)`: the low seven bits are neither 0 (exited) nor 127
(stopped). -/
def WIFSIGNALED (status : Nat) : Bool := decide (1 ≤ WTERMSIG status ∧ WTERMSIG status ≤ 126)

/-- The wait status of a process that called `exit(status)`: only the low eight bits of
the argument reach the parent. -/
def exit_wstatus (status : Int) : Nat := W_EXITCODE (status % 256).toNat 0

/-- Conversion of a C `bool` to `int`: `true` is 1, `false` is 0. -/
def bool_to_int (b : Bool) : Int := if b then 1 else 0

/-! ## The command tree -/

/-- Modelled from the spec: the operator tag of a binary node, declared in a header that is
not in `src/` (section 3: op is one of SEQUENTIAL, AND, OR, PIPE, PARALLEL). `OP_NONE` is
the tag of a leaf and is the constructor `command_t.leaf`; `OP_DUMMY` stands for every
other value of the tag, which `parse_command` sends to its `default:` case. -/
inductive operator_t
  | OP_SEQUENTIAL
  | OP_PARALLEL
  | OP_CONDITIONAL_ZERO
  | OP_CONDITIONAL_NZERO
  | OP_PIPE
  | OP_DUMMY
  deriving DecidableEq, Repr

/-- Modelled from the spec: the simple command, declared in a header that is not in
`src/` (section 3). The fields are the ones `cmd.c` reads: `verb`, `params` (the chain of
parameter words, empty for `NULL`), `in`, `out`, `err` (`none` for `NULL`) and
`io_flags`. -/
structure simple_command_t (word_t : Type) where
  verb : word_t
  params : List word_t
  in_ : Option word_t
  out : Option word_t
  err : Option word_t
  io_flags : Nat
  deriving DecidableEq, Repr

/-- Modelled from the spec: the command node, declared in a header that is not in `src/`
(section 3): a leaf (`op == OP_NONE`, field `scmd`) or a binary node (`op`, `cmd1`,
`cmd2`). -/
inductive command_t (word_t : Type)
  | leaf (scmd : simple_command_t word_t)
  | node (op : operator_t) (cmd1 cmd2 : command_t word_t)
  deriving Repr

/-! ## The world -/

/-- State seen by `cmd.c`: the environment table, working directory and number of
`fork()` calls of the calling process, and the state `sys` outside the process (files,
channels, other processes). -/
structure World (σ : Type) where
  environ : List String
  cwd : String
  forks : Nat
  sys : σ
  deriving DecidableEq, Repr

/-- A system call made by the child of an external command between `fork()` and the
program it loads. `open_` is `open(path, flags, mode)` followed by `DIE(fd < 0, "open")`;
`dup2 newfd` is `dup2(fd, newfd)`; `close` is `close(fd)`; `fprintf_stderr` and `exit` are
reached only when `execvp` returns. -/
inductive Syscall
  | open_ (path : String) (flags : Nat) (mode : Nat)
  | dup2 (newfd : Nat)
  | close
  | execvp (file : String) (argv : List String)
  | fprintf_stderr (msg : String)
  | exit (status : Nat)
  deriving DecidableEq, Repr

/-- What `cmd.c` uses and `src/` does not define, and what the operating system decides.

* `SHELL_EXIT`, `IO_OUT_APPEND`, `IO_ERR_APPEND`: constants of headers not in `src/`.
* `get_word environ w`: the text of the word `w`; `get_argv environ s`: the argument vector
  of `s` (both of the utilities, not in `src/`).
* `chdir sys cwd path`: the new working directory, `none` when `chdir` returns -1.
* `pipe sys`: whether `pipe(pipefd)` succeeds.
* `spawn script environ cwd sys`: the wait status of a child that runs `script` with that
  environment and working directory, and the outside state when it has ended.
* `parallel child1 child2 sys`, `pipeline child1 child2 sys`: the wait statuses of two
  concurrently running children (the second pair joined by the channel) and the outside
  state when both have ended; a child is given as what it does when run alone. -/
structure Host (word_t σ : Type) where
  SHELL_EXIT : Int
  IO_OUT_APPEND : Nat
  IO_ERR_APPEND : Nat
  get_word : List String → word_t → String
  get_argv : List String → simple_command_t word_t → List String
  chdir : σ → String → String → Option String
  pipe : σ → Bool
  spawn : List Syscall → List String → String → σ → Nat × σ
  parallel : (σ → Nat × σ) → (σ → Nat × σ) → σ → Nat × Nat × σ
  pipeline : (σ → Nat × σ) → (σ → Nat × σ) → σ → Nat × Nat × σ

/-- The name of an environment entry: the text before the first `=`. -/
def env_name (entry : String) : List Char := entry.data.takeWhile (fun c => c != '=')

/-- The library call `putenv(string)` for a string that holds `=`: the entry of the same
name is replaced, and when there is none the string is added at the end of the table. -/
def putenv (string : String) : List String → List String
  | [] => [string]
  | e :: es => if env_name e = env_name string then string :: es else e :: putenv string es

variable {word_t σ : Type}

/-! ## The functions of `cmd.c` -/

/-- Source `shell_cd` (lines 23-37): `false` for a `NULL` word and when `chdir` fails. -/
def shell_cd (h : Host word_t σ) (dir : Option word_t) (w : World σ) : Bool × World σ :=
  match dir with
  | none => (false, w)
  | some d =>
    let path := h.get_word w.environ d
    match h.chdir w.sys w.cwd path with
    | none => (false, w)
    | some cwd1 => (true, { w with cwd := cwd1 })

/-- Source `shell_exit` (lines 42-45). -/
def shell_exit (h : Host word_t σ) : Int := h.SHELL_EXIT

/-- Lines 96-102 of `parse_simple`, in the child: the input redirection. -/
def child_input (h : Host word_t σ) (s : simple_command_t word_t) (environ : List String) :
    List Syscall :=
  match s.in_ with
  | some i => [Syscall.open_ (h.get_word environ i) O_RDONLY 0, Syscall.dup2 STDIN_FILENO]
  | none => []

/-- Lines 121-130 of `parse_simple`, in the child: the output redirection when the two
targets are not the same text. The test is `s->io_flags && IO_OUT_APPEND`. -/
def child_output (h : Host word_t σ) (s : simple_command_t word_t)
    (output_file : Option String) : List Syscall :=
  match output_file with
  | some o =>
    [ if s.io_flags ≠ 0 ∧ h.IO_OUT_APPEND ≠ 0 then
        Syscall.open_ o (O_WRONLY ||| O_CREAT ||| O_APPEND) 0o644
      else
        Syscall.open_ o (O_WRONLY ||| O_CREAT ||| O_TRUNC) 0o644,
      Syscall.dup2 STDOUT_FILENO ]
  | none => []

/-- Lines 131-140 of `parse_simple`, in the child: the error redirection when the two
targets are not the same text. The test is `IO_ERR_APPEND`. -/
def child_error (h : Host word_t σ) (error_file : Option String) : List Syscall :=
  match error_file with
  | some e =>
    [ if h.IO_ERR_APPEND ≠ 0 then
        Syscall.open_ e (O_WRONLY ||| O_CREAT ||| O_APPEND) 0o644
      else
        Syscall.open_ e (O_WRONLY ||| O_CREAT ||| O_TRUNC) 0o644,
      Syscall.dup2 STDERR_FILENO ]
  | none => []

/-- Lines 103-141 of `parse_simple`, in the child: the output and error redirections. When
both targets are there and are the same text the file is opened once (the test is
`s->io_flags & O_APPEND`) and duplicated onto both streams. -/
def child_redirects (h : Host word_t σ) (s : simple_command_t word_t)
    (environ : List String) : List Syscall :=
  let output_file := s.out.map (h.get_word environ)
  let error_file := s.err.map (h.get_word environ)
  match output_file, error_file with
  | some o, some e =>
    if o = e then
      [ if s.io_flags &&& O_APPEND ≠ 0 then
          Syscall.open_ o (O_WRONLY ||| O_CREAT ||| O_APPEND) 0o644
        else
          Syscall.open_ o (O_WRONLY ||| O_CREAT ||| O_TRUNC) 0o644,
        Syscall.dup2 STDOUT_FILENO, Syscall.dup2 STDERR_FILENO ]
    else
      child_output h s output_file ++ child_error h error_file
  | _, _ => child_output h s output_file ++ child_error h error_file

/-- Lines 92-146 of `parse_simple`: everything the child of an external command does. -/
def child_script (h : Host word_t σ) (s : simple_command_t word_t) (environ : List String) :
    List Syscall :=
  let argv := h.get_argv environ s
  child_input h s environ ++ child_redirects h s environ ++
    [ Syscall.close,
      Syscall.execvp (argv.headD "") argv,
      Syscall.fprintf_stderr ("Execution failed for '" ++ argv.headD "" ++ "'\n"),
      Syscall.exit EXIT_FAILURE ]

/-- Source `parse_simple` (lines 51-155). The tests are made in the order of the source:
`cd`, then a verb holding `=`, then `exit`/`quit`, then the external command. -/
def parse_simple (h : Host word_t σ) (s : simple_command_t word_t) (w : World σ) :
    Int × World σ :=
  let command := h.get_word w.environ s.verb
  if command = "cd" then
    let r := shell_cd h s.params.head? w
    if r.1 = true then (0, r.2) else (1, r.2)
  else if '=' ∈ command.data then
    (0, { w with environ := putenv command w.environ })
  else if command = "exit" ∨ command = "quit" then
    (shell_exit h, w)
  else
    let r := h.spawn (child_script h s w.environ) w.environ w.cwd w.sys
    let w1 : World σ := { w with forks := w.forks + 1, sys := r.2 }
    if WIFEXITED r.1 = true then ((WEXITSTATUS r.1 : Nat), w1) else (-1, w1)

/-- A forked copy of the calling process that runs `exit(body)`: it starts with the
environment table and working directory of `w`, and what it changes in them is lost when
it ends. A `DIE` inside ends it with `EXIT_FAILURE`. -/
def subshell (body : World σ → Except σ (Int × World σ)) (w : World σ) (sys : σ) : Nat × σ :=
  match body { w with forks := 0, sys := sys } with
  | .ok r => (exit_wstatus r.1, r.2.sys)
  | .error sys1 => (W_EXITCODE EXIT_FAILURE 0, sys1)

/-- Source `run_in_parallel` (lines 160-179); `cmd1` and `cmd2` are given as
`parse_command` applied to the two subtrees. -/
def run_in_parallel (h : Host word_t σ) (cmd1 cmd2 : World σ → Except σ (Int × World σ))
    (w : World σ) : Bool × World σ :=
  let r := h.parallel (subshell cmd1 w) (subshell cmd2 w) w.sys
  let status1 := r.1
  let status2 := r.2.1
  let w1 : World σ := { w with forks := w.forks + 2, sys := r.2.2 }
  if WEXITSTATUS status1 ≠ 0 ∨ WEXITSTATUS status2 ≠ 0 then (false, w1) else (true, w1)

/-- Source `run_on_pipe` (lines 184-216); `cmd1` and `cmd2` are given as `parse_command`
applied to the two subtrees. The function returns `bool`, so `return WEXITSTATUS(status2)`
returns whether that number is not zero. -/
def run_on_pipe (h : Host word_t σ) (cmd1 cmd2 : World σ → Except σ (Int × World σ))
    (w : World σ) : Except σ (Bool × World σ) :=
  if h.pipe w.sys = true then
    let r := h.pipeline (subshell cmd1 w) (subshell cmd2 w) w.sys
    let status2 := r.2.1
    .ok (decide (WEXITSTATUS status2 ≠ 0), { w with forks := w.forks + 2, sys := r.2.2 })
  else
    .error w.sys

/-- Source `parse_command` (lines 221-265). -/
def parse_command (h : Host word_t σ) : command_t word_t → World σ → Except σ (Int × World σ)
  | .leaf scmd, w => .ok (parse_simple h scmd w)
  | .node .OP_SEQUENTIAL cmd1 cmd2, w =>
    match parse_command h cmd1 w with
    | .error sys => .error sys
    | .ok r => parse_command h cmd2 r.2
  | .node .OP_PARALLEL cmd1 cmd2, w =>
    let r := run_in_parallel h (parse_command h cmd1) (parse_command h cmd2) w
    .ok (bool_to_int r.1, r.2)
  | .node .OP_CONDITIONAL_NZERO cmd1 cmd2, w =>
    match parse_command h cmd1 w with
    | .error sys => .error sys
    | .ok r => if r.1 ≠ 0 then parse_command h cmd2 r.2 else .ok (0, r.2)
  | .node .OP_CONDITIONAL_ZERO cmd1 cmd2, w =>
    match parse_command h cmd1 w with
    | .error sys => .error sys
    | .ok r => if r.1 = 0 then parse_command h cmd2 r.2 else .ok (1, r.2)
  | .node .OP_PIPE cmd1 cmd2, w =>
    match run_on_pipe h (parse_command h cmd1) (parse_command h cmd2) w with
    | .error sys => .error sys
    | .ok r => .ok (bool_to_int r.1, r.2)
  | .node .OP_DUMMY _ _, w => .ok (h.SHELL_EXIT, w)


/-- Every simple command of a tree, left to right. -/
def leaves : command_t word_t → List (simple_command_t word_t)
  | .leaf scmd => [scmd]
  | .node _ cmd1 cmd2 => leaves cmd1 ++ leaves cmd2

/-! ## A concrete host, for evaluating the functions on examples -/

/-- How the programs of the examples end: `false` exits with 1, `sh -c "exit 2"` with 2,
`sh -c "kill -9 $$"` is ended by signal 9, every other program exits with 0. -/
def example_wstatus : List String → Nat
  | ["false"] => W_EXITCODE 1 0
  | ["sh", "-c", "exit 2"] => W_EXITCODE 2 0
  | ["sh", "-c", "kill -9 $$"] => W_EXITCODE 0 9
  | _ => W_EXITCODE 0 0

/-- The argument vector a child script loads. -/
def script_argv : List Syscall → List String
  | [] => []
  | Syscall.execvp _ argv :: _ => argv
  | _ :: rest => script_argv rest

/-- A host for the examples: words are their own text, the constants have the values
`SHELL_EXIT = -100`, `IO_OUT_APPEND = 1`, `IO_ERR_APPEND = 2`, the only directory is `/tmp`,
the outside state is the list of the argument vectors loaded so far, and of two concurrent
children the first runs to its end before the second. -/
def example_host : Host String (List (List String)) where
  SHELL_EXIT := -100
  IO_OUT_APPEND := 1
  IO_ERR_APPEND := 2
  get_word := fun _ w => w
  get_argv := fun _ s => s.verb :: s.params
  chdir := fun _ _ path => if path = "/tmp" then some path else none
  pipe := fun _ => true
  spawn := fun script _ _ sys => (example_wstatus (script_argv script), sys ++ [script_argv script])
  parallel := fun child1 child2 sys =>
    let r1 := child1 sys
    let r2 := child2 r1.2
    (r1.1, r2.1, r2.2)
  pipeline := fun child1 child2 sys =>
    let r1 := child1 sys
    let r2 := child2 r1.2
    (r1.1, r2.1, r2.2)

/-- A simple command without redirections. -/
def plain (verb : String) (params : List String) : simple_command_t String :=
  { verb := verb, params := params, in_ := none, out := none, err := none, io_flags := 0 }

/-- The command `quit now > log`, with the output append flag set. -/
def quit_logged : simple_command_t String :=
  { verb := "quit", params := ["now"], in_ := none, out := some "log", err := none,
    io_flags := 1 }

/-- The world the examples start in. -/
def world0 : World (List (List String)) := { environ := [], cwd := "/", forks := 0, sys := [] }

/-! ## Lemmas on the environment table -/

theorem mem_putenv (string : String) (environ : List String) :
    string ∈ putenv string environ := by
  induction environ with
  | nil => simp [putenv]
  | cons e es ih =>
    unfold putenv
    split
    · simp
    · simp [ih]

theorem mem_putenv_of_mem {entry string : String} {environ : List String}
    (hne : env_name string ≠ env_name entry) (hmem : entry ∈ environ) :
    entry ∈ putenv string environ := by
  induction environ with
  | nil => simp at hmem
  | cons e es ih =>
    unfold putenv
    rcases List.mem_cons.mp hmem with heq | htail
    · subst heq
      split
      · rename_i hsame
        exact absurd hsame.symm hne
      · simp
    · split
      · exact List.mem_cons_of_mem _ htail
      · exact List.mem_cons_of_mem _ (ih htail)

theorem verb_ne_cd_of_mem {command : String} (hv : '=' ∈ command.data) : command ≠ "cd" := by
  intro hcd
  subst hcd
  revert hv
  decide

theorem shell_cd_environ (h : Host word_t σ) (dir : Option word_t) (w : World σ) :
    (shell_cd h dir w).2.environ = w.environ := by
  cases dir with
  | none => rfl
  | some d =>
    simp only [shell_cd]
    cases h.chdir w.sys w.cwd (h.get_word w.environ d) <;> rfl

/-- The environment table after `parse_simple`: changed only by an assignment. -/
theorem parse_simple_environ (h : Host word_t σ) (s : simple_command_t word_t) (w : World σ) :
    (parse_simple h s w).2.environ =
      if '=' ∈ (h.get_word w.environ s.verb).data then
        putenv (h.get_word w.environ s.verb) w.environ
      else w.environ := by
  by_cases hv : '=' ∈ (h.get_word w.environ s.verb).data
  · simp [parse_simple, verb_ne_cd_of_mem hv, hv]
  · simp only [parse_simple, hv, if_false]
    split
    · split <;> exact shell_cd_environ h _ w
    · split
      · rfl
      · split <;> rfl

theorem run_in_parallel_environ (h : Host word_t σ)
    (cmd1 cmd2 : World σ → Except σ (Int × World σ)) (w : World σ) :
    (run_in_parallel h cmd1 cmd2 w).2.environ = w.environ := by
  simp only [run_in_parallel]
  split <;> rfl

theorem run_on_pipe_environ (h : Host word_t σ)
    (cmd1 cmd2 : World σ → Except σ (Int × World σ)) (w : World σ) (r : Bool × World σ)
    (hr : run_on_pipe h cmd1 cmd2 w = .ok r) : r.2.environ = w.environ := by
  unfold run_on_pipe at hr
  split at hr
  · injection hr with hr
    subst hr
    rfl
  · cases hr

/-- A property of the environment table that every assignment of the tree keeps is kept by
`parse_command`. -/
theorem parse_command_environ_invariant (h : Host word_t σ) (P : List String → Prop)
    (c : command_t word_t)
    (hP : ∀ t ∈ leaves c, ∀ environ : List String,
      '=' ∈ (h.get_word environ t.verb).data → P environ →
        P (putenv (h.get_word environ t.verb) environ)) :
    ∀ (w : World σ) (r : Int × World σ),
      P w.environ → parse_command h c w = .ok r → P r.2.environ := by
  induction c with
  | leaf scmd =>
    intro w r hw hr
    simp only [parse_command, Except.ok.injEq] at hr
    subst hr
    rw [parse_simple_environ]
    split
    · rename_i hv
      exact hP scmd (by simp [leaves]) w.environ hv hw
    · exact hw
  | node op cmd1 cmd2 ih1 ih2 =>
    have hP1 : ∀ t ∈ leaves cmd1, ∀ environ : List String,
        '=' ∈ (h.get_word environ t.verb).data → P environ →
          P (putenv (h.get_word environ t.verb) environ) :=
      fun t ht => hP t (by simp [leaves, ht])
    have hP2 : ∀ t ∈ leaves cmd2, ∀ environ : List String,
        '=' ∈ (h.get_word environ t.verb).data → P environ →
          P (putenv (h.get_word environ t.verb) environ) :=
      fun t ht => hP t (by simp [leaves, ht])
    intro w r hw hr
    cases op with
    | OP_SEQUENTIAL =>
      simp only [parse_command] at hr
      split at hr
      · cases hr
      · rename_i r1 h1
        exact ih2 hP2 r1.2 r (ih1 hP1 w r1 hw h1) hr
    | OP_PARALLEL =>
      simp only [parse_command, Except.ok.injEq] at hr
      subst hr
      simpa [run_in_parallel_environ] using hw
    | OP_CONDITIONAL_ZERO =>
      simp only [parse_command] at hr
      split at hr
      · cases hr
      · rename_i r1 h1
        split at hr
        · exact ih2 hP2 r1.2 r (ih1 hP1 w r1 hw h1) hr
        · injection hr with hr
          subst hr
          exact ih1 hP1 w r1 hw h1
    | OP_CONDITIONAL_NZERO =>
      simp only [parse_command] at hr
      split at hr
      · cases hr
      · rename_i r1 h1
        split at hr
        · exact ih2 hP2 r1.2 r (ih1 hP1 w r1 hw h1) hr
        · injection hr with hr
          subst hr
          exact ih1 hP1 w r1 hw h1
    | OP_PIPE =>
      simp only [parse_command] at hr
      split at hr
      · cases hr
      · rename_i r1 h1
        injection hr with hr
        subst hr
        simpa [run_on_pipe_environ h _ _ w r1 h1] using hw
    | OP_DUMMY =>
      simp only [parse_command, Except.ok.injEq] at hr
      subst hr
      exact hw

theorem exists_name_putenv {name : List Char} (string : String) {environ : List String}
    (hex : ∃ e ∈ environ, env_name e = name) :
    ∃ e ∈ putenv string environ, env_name e = name := by
  induction environ with
  | nil => simp at hex
  | cons e es ih =>
    obtain ⟨e1, he1, hname⟩ := hex
    unfold putenv
    rcases List.mem_cons.mp he1 with heq | htail
    · subst heq
      split
      · rename_i hsame
        exact ⟨string, by simp, hsame ▸ hname⟩
      · exact ⟨e1, by simp, hname⟩
    · split
      · exact ⟨e1, List.mem_cons_of_mem _ htail, hname⟩
      · obtain ⟨e2, he2, hname2⟩ := ih ⟨e1, htail, hname⟩
        exact ⟨e2, List.mem_cons_of_mem _ he2, hname2⟩

/-! ## The combinators that run one side after the other -/

/-- C4: for a binary node with op AND (`OP_CONDITIONAL_ZERO`) whose left subtree returns the
status `s` and leaves the world `w1`: when `s = 0` the call is exactly one run of the right
subtree on `w1` (so it returns the right subtree's status); when `s ≠ 0` the call returns
1, a nonzero status, and the world is `w1` whatever the right subtree is (it is not run). -/
theorem parse_command_conditional_zero (h : Host word_t σ) (cmd1 cmd2 : command_t word_t)
    (w w1 : World σ) (s : Int) (hleft : parse_command h cmd1 w = .ok (s, w1)) :
    (s = 0 →
      parse_command h (.node .OP_CONDITIONAL_ZERO cmd1 cmd2) w = parse_command h cmd2 w1) ∧
    (s ≠ 0 → (1 : Int) ≠ 0 ∧ ∀ other : command_t word_t,
      parse_command h (.node .OP_CONDITIONAL_ZERO cmd1 other) w = .ok (1, w1)) := by
  constructor
  · intro hs
    simp [parse_command, hleft, hs]
  · intro hs
    refine ⟨by decide, fun other => ?_⟩
    simp [parse_command, hleft, hs]

theorem parse_command_conditional_zero_witness :
    parse_command example_host (.leaf (plain "false" [])) world0
      = .ok (1, { environ := [], cwd := "/", forks := 1, sys := [["false"]] }) ∧
    ((1 : Int) ≠ 0 ∧ ∀ other : command_t String,
      parse_command example_host (.node .OP_CONDITIONAL_ZERO (.leaf (plain "false" [])) other)
        world0 = .ok (1, { environ := [], cwd := "/", forks := 1, sys := [["false"]] })) :=
  ⟨rfl, (parse_command_conditional_zero example_host (.leaf (plain "false" []))
    (.leaf (plain "echo" ["A"])) world0 _ 1 rfl).2 (by decide)⟩

/-- C5: for a binary node with op OR (`OP_CONDITIONAL_NZERO`) whose left subtree returns
the status `s` and leaves the world `w1`: when `s ≠ 0` the call is exactly one run of the
right subtree on `w1` (so it returns the right subtree's status); when `s = 0` the call
returns 0 and the world is `w1` whatever the right subtree is (it is not run). -/
theorem parse_command_conditional_nzero (h : Host word_t σ) (cmd1 cmd2 : command_t word_t)
    (w w1 : World σ) (s : Int) (hleft : parse_command h cmd1 w = .ok (s, w1)) :
    (s ≠ 0 →
      parse_command h (.node .OP_CONDITIONAL_NZERO cmd1 cmd2) w = parse_command h cmd2 w1) ∧
    (s = 0 → ∀ other : command_t word_t,
      parse_command h (.node .OP_CONDITIONAL_NZERO cmd1 other) w = .ok (0, w1)) := by
  constructor
  · intro hs
    simp [parse_command, hleft, hs]
  · intro hs other
    simp [parse_command, hleft, hs]

theorem parse_command_conditional_nzero_witness :
    parse_command example_host (.leaf (plain "false" [])) world0
      = .ok (1, { environ := [], cwd := "/", forks := 1, sys := [["false"]] }) ∧
    parse_command example_host
      (.node .OP_CONDITIONAL_NZERO (.leaf (plain "false" [])) (.leaf (plain "echo" ["A"]))) world0
      = .ok (0, { environ := [], cwd := "/", forks := 2, sys := [["false"], ["echo", "A"]] }) :=
  ⟨rfl, ((parse_command_conditional_nzero example_host (.leaf (plain "false" []))
    (.leaf (plain "echo" ["A"])) world0 _ 1 rfl).1 (by decide)).trans rfl⟩

/-- C6: for a binary node with op SEQUENTIAL whose left subtree returns a status `s` and
leaves the world `w1`, the call is exactly one run of the right subtree on `w1`: it returns
the right subtree's status, and a left subtree that leaves the same world with another
status gives the same result. -/
theorem parse_command_sequential (h : Host word_t σ) (cmd1 cmd2 : command_t word_t)
    (w w1 : World σ) (s : Int) (hleft : parse_command h cmd1 w = .ok (s, w1)) :
    parse_command h (.node .OP_SEQUENTIAL cmd1 cmd2) w = parse_command h cmd2 w1 ∧
    ∀ (other : command_t word_t) (s2 : Int), parse_command h other w = .ok (s2, w1) →
      parse_command h (.node .OP_SEQUENTIAL other cmd2) w
        = parse_command h (.node .OP_SEQUENTIAL cmd1 cmd2) w := by
  constructor
  · simp [parse_command, hleft]
  · intro other s2 hother
    simp [parse_command, hleft, hother]

theorem parse_command_sequential_witness :
    parse_command example_host (.leaf (plain "false" [])) world0
      = .ok (1, { environ := [], cwd := "/", forks := 1, sys := [["false"]] }) ∧
    parse_command example_host
      (.node .OP_SEQUENTIAL (.leaf (plain "false" [])) (.leaf (plain "echo" ["A"]))) world0
      = .ok (0, { environ := [], cwd := "/", forks := 2, sys := [["false"], ["echo", "A"]] }) :=
  ⟨rfl, ((parse_command_sequential example_host (.leaf (plain "false" []))
    (.leaf (plain "echo" ["A"])) world0 _ 1 rfl).1).trans rfl⟩

/-- C1 (as amended): `SHELL_EXIT` (taken to be nonzero) returned by the left subtree is
handled like any other nonzero status. Under SEQUENTIAL and under OR
(`OP_CONDITIONAL_NZERO`) the call is one run of the right subtree on the world the left
subtree left, and returns the right subtree's status. Under AND (`OP_CONDITIONAL_ZERO`)
the right subtree is not run: the world is the one the left subtree left, whatever the
right subtree is. -/
theorem parse_command_left_shell_exit (h : Host word_t σ) (cmd1 cmd2 : command_t word_t)
    (w w1 : World σ) (hne : h.SHELL_EXIT ≠ 0)
    (hleft : parse_command h cmd1 w = .ok (h.SHELL_EXIT, w1)) :
    parse_command h (.node .OP_SEQUENTIAL cmd1 cmd2) w = parse_command h cmd2 w1 ∧
    parse_command h (.node .OP_CONDITIONAL_NZERO cmd1 cmd2) w = parse_command h cmd2 w1 ∧
    ∃ st : Int, ∀ other : command_t word_t,
      parse_command h (.node .OP_CONDITIONAL_ZERO cmd1 other) w = .ok (st, w1) := by
  refine ⟨?_, ?_, 1, fun other => ?_⟩
  · simp [parse_command, hleft]
  · simp [parse_command, hleft, hne]
  · simp [parse_command, hleft, hne]

theorem parse_command_left_shell_exit_witness :
    example_host.SHELL_EXIT ≠ 0 ∧
    parse_command example_host (.leaf (plain "exit" [])) world0
      = .ok (example_host.SHELL_EXIT, world0) ∧
    parse_command example_host
      (.node .OP_SEQUENTIAL (.leaf (plain "exit" [])) (.leaf (plain "echo" ["A"]))) world0
      = .ok (0, { environ := [], cwd := "/", forks := 1, sys := [["echo", "A"]] }) :=
  ⟨by decide, rfl, ((parse_command_left_shell_exit example_host (.leaf (plain "exit" []))
    (.leaf (plain "echo" ["A"])) world0 world0 (by decide) rfl).1).trans rfl⟩

/-- C1 (as stated) fails: in `exit ; X=1` and in `exit || X=1` the left subtree returns
`SHELL_EXIT`, yet the right subtree is run (the table gets the entry `X=1`) and the call
returns 0, which is not `SHELL_EXIT`. -/
theorem shell_exit_not_propagated :
    parse_command example_host (.leaf (plain "exit" [])) world0
      = .ok (example_host.SHELL_EXIT, world0) ∧
    parse_command example_host
      (.node .OP_SEQUENTIAL (.leaf (plain "exit" [])) (.leaf (plain "X=1" []))) world0
      = .ok (0, { environ := ["X=1"], cwd := "/", forks := 0, sys := [] }) ∧
    parse_command example_host
      (.node .OP_CONDITIONAL_NZERO (.leaf (plain "exit" [])) (.leaf (plain "X=1" []))) world0
      = .ok (0, { environ := ["X=1"], cwd := "/", forks := 0, sys := [] }) ∧
    (0 : Int) ≠ example_host.SHELL_EXIT :=
  ⟨rfl, rfl, rfl, by decide⟩

/-! ## The simple command -/

/-- C8: when the verb text is exactly `exit` or exactly `quit`, whatever the parameters
and redirections, `parse_simple` returns `SHELL_EXIT` and leaves the world as it was: no
`fork()`, the same environment table, the same working directory. -/
theorem parse_simple_exit (h : Host word_t σ) (s : simple_command_t word_t) (w : World σ)
    (hv : h.get_word w.environ s.verb = "exit" ∨ h.get_word w.environ s.verb = "quit") :
    parse_simple h s w = (h.SHELL_EXIT, w) ∧
    (parse_simple h s w).2.forks = w.forks ∧
    (parse_simple h s w).2.environ = w.environ ∧
    (parse_simple h s w).2.cwd = w.cwd := by
  have hmain : parse_simple h s w = (h.SHELL_EXIT, w) := by
    rcases hv with hv | hv <;> simp [parse_simple, hv, shell_exit]
  simp [hmain]

theorem parse_simple_exit_witness :
    (example_host.get_word world0.environ quit_logged.verb = "exit" ∨
      example_host.get_word world0.environ quit_logged.verb = "quit") ∧
    parse_simple example_host quit_logged world0 = (-100, world0) ∧
    (parse_simple example_host quit_logged world0).2.forks = 0 :=
  ⟨Or.inr rfl, (parse_simple_exit example_host quit_logged world0 (Or.inr rfl)).1,
    (parse_simple_exit example_host quit_logged world0 (Or.inr rfl)).2.1⟩

/-- C7: when the verb text holds `=`, `parse_simple` returns 0, makes no `fork()`, and
changes the world only by `putenv` of the verb text, which is then an entry of the
table. What runs next in the process runs on that world (shown for the right side of `;`).
After any later command of the process the table still has an entry of that name, and it
still has this very entry when no assignment of that command has the same name. -/
theorem parse_simple_assignment (h : Host word_t σ) (s : simple_command_t word_t)
    (w : World σ) (hv : '=' ∈ (h.get_word w.environ s.verb).data) :
    parse_simple h s w
      = (0, { w with environ := putenv (h.get_word w.environ s.verb) w.environ }) ∧
    (parse_simple h s w).2.forks = w.forks ∧
    h.get_word w.environ s.verb ∈ (parse_simple h s w).2.environ ∧
    (∀ next : command_t word_t,
      parse_command h (.node .OP_SEQUENTIAL (.leaf s) next) w
        = parse_command h next (parse_simple h s w).2) ∧
    (∀ (next : command_t word_t) (r : Int × World σ),
      parse_command h next (parse_simple h s w).2 = .ok r →
      ∃ e ∈ r.2.environ, env_name e = env_name (h.get_word w.environ s.verb)) ∧
    (∀ (next : command_t word_t) (r : Int × World σ),
      (∀ t ∈ leaves next, ∀ environ : List String,
        '=' ∈ (h.get_word environ t.verb).data →
        env_name (h.get_word environ t.verb) ≠ env_name (h.get_word w.environ s.verb)) →
      parse_command h next (parse_simple h s w).2 = .ok r →
      h.get_word w.environ s.verb ∈ r.2.environ) := by
  have hmain : parse_simple h s w
      = (0, { w with environ := putenv (h.get_word w.environ s.verb) w.environ }) := by
    simp [parse_simple, verb_ne_cd_of_mem hv, hv]
  refine ⟨hmain, by simp [hmain], by simp [hmain, mem_putenv], ?_, ?_, ?_⟩
  · intro next
    simp [parse_command]
  · intro next r hr
    refine parse_command_environ_invariant h
      (fun environ => ∃ e ∈ environ, env_name e = env_name (h.get_word w.environ s.verb))
      next (fun t _ environ _ hex => exists_name_putenv _ hex) _ r ?_ hr
    exact ⟨_, by simp [hmain, mem_putenv], rfl⟩
  · intro next r hkeep hr
    refine parse_command_environ_invariant h
      (fun environ => h.get_word w.environ s.verb ∈ environ)
      next (fun t ht environ hassign hmem => mem_putenv_of_mem (hkeep t ht environ hassign) hmem)
      _ r ?_ hr
    simp [hmain, mem_putenv]

theorem parse_simple_assignment_witness :
    '=' ∈ (example_host.get_word world0.environ (plain "X=1" []).verb).data ∧
    parse_simple example_host (plain "X=1" []) world0
      = (0, { environ := ["X=1"], cwd := "/", forks := 0, sys := [] }) :=
  ⟨by decide, (parse_simple_assignment example_host (plain "X=1" []) world0 (by decide)).1⟩

/-- C10: for an external simple command (the verb text is not `cd`, `exit` or `quit` and
holds no `=`) whose child ends with the wait status `st`, `parse_simple` returns
`WEXITSTATUS(st)` when `WIFEXITED(st)` and -1 otherwise. So a child that exits with the code
`e` (0..255) gives exactly `e`, a child ended by a signal gives -1, and -1 is negative and
differs from every exit code 0..255. -/
theorem parse_simple_external (h : Host word_t σ) (s : simple_command_t word_t) (w : World σ)
    (st : Nat)
    (hcd : h.get_word w.environ s.verb ≠ "cd")
    (hexit : h.get_word w.environ s.verb ≠ "exit")
    (hquit : h.get_word w.environ s.verb ≠ "quit")
    (hassign : '=' ∉ (h.get_word w.environ s.verb).data)
    (hst : (h.spawn (child_script h s w.environ) w.environ w.cwd w.sys).1 = st) :
    (parse_simple h s w).1 = (if WIFEXITED st = true then (WEXITSTATUS st : Int) else -1) ∧
    (∀ e : Nat, e ≤ 255 → st = W_EXITCODE e 0 → (parse_simple h s w).1 = (e : Int)) ∧
    (WIFSIGNALED st = true → (parse_simple h s w).1 = -1) ∧
    ((-1 : Int) < 0 ∧ ∀ e : Nat, e ≤ 255 → (-1 : Int) ≠ (e : Int)) := by
  have hmain : (parse_simple h s w).1
      = (if WIFEXITED st = true then (WEXITSTATUS st : Int) else -1) := by
    subst hst
    simp only [parse_simple, hcd, hexit, hquit, hassign, if_false, or_self]
    split <;> rfl
  refine ⟨hmain, ?_, ?_, by decide, ?_⟩
  · intro e he hste
    subst hste
    rw [hmain]
    have h1 : WIFEXITED (W_EXITCODE e 0) = true := by
      simp [WIFEXITED, WTERMSIG, W_EXITCODE]
      omega
    have h2 : WEXITSTATUS (W_EXITCODE e 0) = e := by
      simp [WEXITSTATUS, W_EXITCODE]
      omega
    simp [h1, h2]
  · intro hsig
    rw [hmain]
    have h1 : WIFEXITED st = false := by
      simp [WIFSIGNALED] at hsig
      simp [WIFEXITED]
      omega
    simp [h1]
  · intro e _
    omega

theorem parse_simple_external_witness :
    (example_host.spawn
      (child_script example_host (plain "sh" ["-c", "kill -9 $$"]) world0.environ)
      world0.environ world0.cwd world0.sys).1 = W_EXITCODE 0 9 ∧
    WIFSIGNALED (W_EXITCODE 0 9) = true ∧
    (parse_simple example_host (plain "sh" ["-c", "kill -9 $$"]) world0).1 = -1 :=
  ⟨rfl, by decide,
    (parse_simple_external example_host (plain "sh" ["-c", "kill -9 $$"]) world0
      (W_EXITCODE 0 9) (by decide) (by decide) (by decide) (by decide) rfl).2.2.1 (by decide)⟩

/-! ## The combinators that run both sides at once -/

/-- What `parse_command` returns for a PARALLEL node, for every host: 1 when
`WEXITSTATUS` of both children is 0, and 0 otherwise. -/
theorem parse_command_parallel_status (h : Host word_t σ) (cmd1 cmd2 : command_t word_t)
    (w : World σ) (status1 status2 : Nat) (sys : σ)
    (hjoin : h.parallel (subshell (parse_command h cmd1) w) (subshell (parse_command h cmd2) w)
      w.sys = (status1, status2, sys)) :
    parse_command h (.node .OP_PARALLEL cmd1 cmd2) w
      = .ok (if WEXITSTATUS status1 = 0 ∧ WEXITSTATUS status2 = 0 then 1 else 0,
          { w with forks := w.forks + 2, sys := sys }) := by
  simp only [parse_command, run_in_parallel, hjoin]
  by_cases h1 : WEXITSTATUS status1 = 0 <;> by_cases h2 : WEXITSTATUS status2 = 0 <;>
    simp [h1, h2, bool_to_int]

/-- What `parse_command` returns for a PIPE node when the channel is made, for every
host: 0 when `WEXITSTATUS` of the right child is 0, and 1 otherwise. -/
theorem parse_command_pipe_status (h : Host word_t σ) (cmd1 cmd2 : command_t word_t)
    (w : World σ) (status1 status2 : Nat) (sys : σ) (hpipe : h.pipe w.sys = true)
    (hjoin : h.pipeline (subshell (parse_command h cmd1) w) (subshell (parse_command h cmd2) w)
      w.sys = (status1, status2, sys)) :
    parse_command h (.node .OP_PIPE cmd1 cmd2) w
      = .ok (if WEXITSTATUS status2 = 0 then 0 else 1,
          { w with forks := w.forks + 2, sys := sys }) := by
  simp only [parse_command, run_on_pipe, hpipe, hjoin, if_true]
  by_cases h2 : WEXITSTATUS status2 = 0 <;> simp [h2, bool_to_int]

/-- C2 fails on the code: in `true & true` both children exit with 0 and `parse_command`
returns 1; in `false & true` the first child exits with 1 and `parse_command` returns 0. -/
theorem parallel_status_is_inverted :
    subshell (parse_command example_host (.leaf (plain "true" []))) world0 []
      = (W_EXITCODE 0 0, [["true"]]) ∧
    subshell (parse_command example_host (.leaf (plain "false" []))) world0 []
      = (W_EXITCODE 1 0, [["false"]]) ∧
    parse_command example_host
      (.node .OP_PARALLEL (.leaf (plain "true" [])) (.leaf (plain "true" []))) world0
      = .ok (1, { environ := [], cwd := "/", forks := 2, sys := [["true"], ["true"]] }) ∧
    parse_command example_host
      (.node .OP_PARALLEL (.leaf (plain "false" [])) (.leaf (plain "true" []))) world0
      = .ok (0, { environ := [], cwd := "/", forks := 2, sys := [["false"], ["true"]] }) :=
  ⟨rfl, rfl, rfl, rfl⟩

/-- C3 fails on the code: in `true | sh -c "exit 2"` the right child exits with 2 and
`parse_command` returns 1. -/
theorem pipe_status_is_collapsed :
    subshell (parse_command example_host (.leaf (plain "sh" ["-c", "exit 2"]))) world0 [["true"]]
      = (W_EXITCODE 2 0, [["true"], ["sh", "-c", "exit 2"]]) ∧
    parse_command example_host
      (.node .OP_PIPE (.leaf (plain "true" [])) (.leaf (plain "sh" ["-c", "exit 2"]))) world0
      = .ok (1, { environ := [], cwd := "/", forks := 2,
                  sys := [["true"], ["sh", "-c", "exit 2"]] }) :=
  ⟨rfl, rfl⟩

/-! ## The redirections of an external command -/

/-- How the error target is opened when the two targets differ, for every host whose
`IO_ERR_APPEND` is not zero: with `O_APPEND`, whatever `io_flags` is. -/
theorem child_error_appends (h : Host word_t σ) (e : String) (hflag : h.IO_ERR_APPEND ≠ 0) :
    child_error h (some e)
      = [Syscall.open_ e (O_WRONLY ||| O_CREAT ||| O_APPEND) 0o644,
         Syscall.dup2 STDERR_FILENO] := by
  simp [child_error, hflag]

/-- How the output target is opened when the two targets differ, for every host whose
`IO_OUT_APPEND` is not zero: with `O_APPEND` when `io_flags` is not zero, with `O_TRUNC`
when it is zero. -/
theorem child_output_appends (h : Host word_t σ) (s : simple_command_t word_t) (o : String)
    (hflag : h.IO_OUT_APPEND ≠ 0) :
    child_output h s (some o)
      = [Syscall.open_ o
          (if s.io_flags ≠ 0 then O_WRONLY ||| O_CREAT ||| O_APPEND
           else O_WRONLY ||| O_CREAT ||| O_TRUNC) 0o644,
         Syscall.dup2 STDOUT_FILENO] := by
  by_cases hz : s.io_flags = 0 <;> simp [child_output, hflag, hz]

/-- C9 fails on the code. In `ls > out.txt 2> err.txt` (`io_flags = 0`, no append flag
set) the error target is opened with `O_APPEND`. In `ls > out.txt 2>> err.txt`
(`io_flags = IO_ERR_APPEND`, the output append flag not set) the output target is opened
with `O_APPEND`. -/
theorem redirect_append_flags_not_honoured :
    (0 &&& example_host.IO_ERR_APPEND = 0 ∧
      child_script example_host
        { verb := "ls", params := [], in_ := none, out := some "out.txt",
          err := some "err.txt", io_flags := 0 } []
        = [ Syscall.open_ "out.txt" (O_WRONLY ||| O_CREAT ||| O_TRUNC) 0o644,
            Syscall.dup2 STDOUT_FILENO,
            Syscall.open_ "err.txt" (O_WRONLY ||| O_CREAT ||| O_APPEND) 0o644,
            Syscall.dup2 STDERR_FILENO,
            Syscall.close,
            Syscall.execvp "ls" ["ls"],
            Syscall.fprintf_stderr "Execution failed for 'ls'\n",
            Syscall.exit EXIT_FAILURE ]) ∧
    (example_host.IO_ERR_APPEND &&& example_host.IO_OUT_APPEND = 0 ∧
      child_script example_host
        { verb := "ls", params := [], in_ := none, out := some "out.txt",
          err := some "err.txt", io_flags := example_host.IO_ERR_APPEND } []
        = [ Syscall.open_ "out.txt" (O_WRONLY ||| O_CREAT ||| O_APPEND) 0o644,
            Syscall.dup2 STDOUT_FILENO,
            Syscall.open_ "err.txt" (O_WRONLY ||| O_CREAT ||| O_APPEND) 0o644,
            Syscall.dup2 STDERR_FILENO,
            Syscall.close,
            Syscall.execvp "ls" ["ls"],
            Syscall.fprintf_stderr "Execution failed for 'ls'\n",
            Syscall.exit EXIT_FAILURE ]) :=
  ⟨⟨by decide, rfl⟩, ⟨by decide, rfl⟩⟩

end MiniShell
